import Mathlib

/-!
# Xidi core subsystems: shallow embedding and verification

This file embeds in Lean 4 the parts of the Xidi repository needed to settle a
fixed list of claims about its force-feedback engine, direction-vector
conversions, event buffer, per-axis property transforms, mapper capabilities,
and force-feedback registration.

Conventions of the embedding:
* The C++ floating-point type `TEffectValue` (a `float`) is modelled by `ℚ`,
  so the arithmetic is the ideal real arithmetic the code approximates.
* `TEffectTimeMs` (`uint32_t`) is modelled by `ℕ`; wherever unsigned wrap-around
  matters it is written explicitly with `% 2^32`.
* Fallible or undefined operations (unchecked `std::optional::value()`,
  integer `%` with a possibly-zero divisor) are modelled with `Option`,
  `none` marking the execution that would fault.
-/

namespace Xidi

/-- `kEffectForceMagnitudeMaximum` from ForceFeedbackTypes.h. -/
def kEffectForceMagnitudeMaximum : ℚ := 10000

/-- `kEffectForceMagnitudeMinimum` from ForceFeedbackTypes.h. -/
def kEffectForceMagnitudeMinimum : ℚ := -10000

/-- `kEffectForceMagnitudeZero` from ForceFeedbackTypes.h. -/
def kEffectForceMagnitudeZero : ℚ := 0

/-- `kEffectAngleMinimum`: angles are in hundredths of degrees, minimum 0. -/
def kEffectAngleMinimum : ℚ := 0

/-- `kEffectAngleMaximum`: 35999 hundredths of degrees. -/
def kEffectAngleMaximum : ℚ := 35999

/-- Envelope parameters (`SEnvelope` in ForceFeedbackParameters.h): attack
time and level, fade time and level. -/
structure SEnvelope where
  attackTime : ℕ
  attackLevel : ℚ
  fadeTime : ℕ
  fadeLevel : ℚ
deriving DecidableEq

/-- Common force-feedback effect parameters (`SCommonParameters`).  The
duration and envelope are `std::optional` in the source.  The field
`samplePeriodForComputations` mirrors the source: it is the sample period
actually used in computations, kept distinct from the requested
`samplePeriod`. -/
structure SCommonParameters where
  duration : Option ℕ := none
  startDelay : ℕ := 0
  samplePeriod : ℕ := 0
  samplePeriodForComputations : ℕ := 1
  gainFraction : ℚ := 1
  envelope : Option SEnvelope := none
deriving DecidableEq

/-- Modelled from the spec: `SetSamplePeriod` lives in ForceFeedbackEffect.h,
which is not under src/.  The spec says the sample period is "0 = continuous",
and continuous computation is realized by storing the requested period as 1
millisecond for computations, so the computation-side divisor is never zero. -/
def setSamplePeriod (cp : SCommonParameters) (newSamplePeriod : ℕ) :
    SCommonParameters :=
  { cp with
    samplePeriod := newSamplePeriod
    samplePeriodForComputations := if newSamplePeriod = 0 then 1 else newSamplePeriod }

/-- Modelled from the spec: `SetDuration` setter of ForceFeedbackEffect.h
(header not under src/). -/
def setDuration (cp : SCommonParameters) (newDuration : ℕ) :
    SCommonParameters :=
  { cp with duration := some newDuration }

/-- Modelled from the spec: `SetStartDelay` setter of ForceFeedbackEffect.h
(header not under src/). -/
def setStartDelay (cp : SCommonParameters) (newStartDelay : ℕ) :
    SCommonParameters :=
  { cp with startDelay := newStartDelay }

/-- Modelled from the spec: `SetGain` setter of ForceFeedbackEffect.h (header
not under src/); gain is a fraction in [0, 1]. -/
def setGainFraction (cp : SCommonParameters) (newGainFraction : ℚ) :
    SCommonParameters :=
  { cp with gainFraction := newGainFraction }

/-- Modelled from the spec: `SetEnvelope` setter of ForceFeedbackEffect.h
(header not under src/). -/
def setEnvelope (cp : SCommonParameters) (newEnvelope : SEnvelope) :
    SCommonParameters :=
  { cp with envelope := some newEnvelope }

/-- One public parameter-setting call on the common parameters of an effect. -/
inductive ParamOp where
  | opSetDuration (d : ℕ)
  | opSetStartDelay (d : ℕ)
  | opSetSamplePeriod (p : ℕ)
  | opSetGainFraction (g : ℚ)
  | opSetEnvelope (e : SEnvelope)

/-- Applies one parameter-setting call. -/
def applyParamOp (cp : SCommonParameters) : ParamOp → SCommonParameters
  | .opSetDuration d => setDuration cp d
  | .opSetStartDelay d => setStartDelay cp d
  | .opSetSamplePeriod p => setSamplePeriod cp p
  | .opSetGainFraction g => setGainFraction cp g
  | .opSetEnvelope e => setEnvelope cp e

/-- Applies a sequence of parameter-setting calls. -/
def applyParamOps (cp : SCommonParameters) (ops : List ParamOp) : SCommonParameters :=
  ops.foldl applyParamOp cp

/-- Default-constructed common parameters (`commonParameters()` in
`Effect::Effect`): nothing set, sample period for computations 1. -/
def defaultCommonParameters : SCommonParameters := {}

/-- Periodic effect type-specific parameters (`SPeriodicParameters`). -/
structure SPeriodicParameters where
  amplitude : ℚ
  offset : ℚ
  phase : ℚ
  period : ℕ
deriving DecidableEq

/-- `PeriodicEffect::AreTypeSpecificParametersValid` from
ForceFeedbackEffect.cpp. -/
def arePeriodicParametersValid (p : SPeriodicParameters) : Bool :=
  if p.amplitude < 0 ∨ p.amplitude > kEffectForceMagnitudeMaximum then false
  else if p.offset < kEffectForceMagnitudeMinimum ∨ p.offset > kEffectForceMagnitudeMaximum then false
  else if p.phase < kEffectAngleMinimum ∨ p.phase > kEffectAngleMaximum then false
  else if p.period < 1 then false
  else true

/-- `ConstantForceEffect::AreTypeSpecificParametersValid` from
ForceFeedbackEffect.cpp. -/
def areConstantForceParametersValid (magnitude : ℚ) : Bool :=
  decide (kEffectForceMagnitudeMinimum ≤ magnitude ∧ magnitude ≤ kEffectForceMagnitudeMaximum)

/-- Type-specific part of an effect.  The periodic case carries the waveform
amplitude function (`WaveformAmplitude`, a virtual method implemented e.g. by
`SineWaveEffect` using `TrigonometrySine`); it is kept as a function parameter
since its transcendental values are not at issue in any claim. -/
inductive TypeSpecific where
  | constantForce (magnitude : ℚ)
  | periodic (params : SPeriodicParameters) (waveformAmplitude : ℚ → ℚ)

/-- A force-feedback effect: common parameters plus the type-specific part. -/
structure Effect where
  common : SCommonParameters
  typeSpec : TypeSpecific

/-- `std::round` for the non-negative arguments arising in phase computation:
round half away from zero, which for x ≥ 0 is `⌊x + 1/2⌋`. -/
def roundQ (x : ℚ) : ℤ := ⌊x + (1 : ℚ) / 2⌋

/-- `PeriodicEffect::ComputePhase` from ForceFeedbackEffect.cpp, lines 91-100:
`kRawTimeInPeriods = rawTime / period`; the current phase is
`round((kRawTimeInPeriods - floor(kRawTimeInPeriods)) * 36000 + phase)`,
reduced by 36000 once if it reached 36000. -/
def computePhase (p : SPeriodicParameters) (rawTime : ℕ) : ℚ :=
  let rawTimeInPeriods : ℚ := (rawTime : ℚ) / (p.period : ℚ)
  let currentPhase : ℚ :=
    (roundQ ((rawTimeInPeriods - ⌊rawTimeInPeriods⌋) * 36000 + p.phase) : ℚ)
  if currentPhase ≥ 36000 then currentPhase - 36000 else currentPhase

/-- `Effect::ApplyEnvelope` from ForceFeedbackEffect.cpp, lines 128-149.
The fade-branch test reads `commonParameters.duration.value()` without
checking presence; `none` models the faulting execution.  The unsigned
subtractions `duration - fadeTime` and `rawTime - (duration - fadeTime)` are
taken modulo 2^32 as in the source's unsigned arithmetic. -/
def applyEnvelope (cp : SCommonParameters) (rawTime : ℕ)
    (sustainLevel : ℚ) : Option ℚ :=
  match cp.envelope with
  | none => some sustainLevel
  | some envelope =>
    if rawTime < envelope.attackTime then
      let envelopeTime : ℕ := rawTime
      let envelopeSlope : ℚ :=
        (sustainLevel - envelope.attackLevel) / (envelope.attackTime : ℚ)
      some (envelope.attackLevel + envelopeSlope * (envelopeTime : ℚ))
    else
      match cp.duration with
      | none => none
      | some duration =>
        let fadeStart : ℕ := (duration + 2 ^ 32 - envelope.fadeTime) % 2 ^ 32
        if rawTime > fadeStart then
          let envelopeTime : ℕ := (rawTime + 2 ^ 32 - fadeStart) % 2 ^ 32
          let envelopeSlope : ℚ :=
            (envelope.fadeLevel - sustainLevel) / (envelope.fadeTime : ℚ)
          some (sustainLevel + envelopeSlope * (envelopeTime : ℚ))
        else
          some sustainLevel

/-- `ComputeRawMagnitude` from ForceFeedbackEffect.cpp: the constant-force
version (lines 104-112) envelopes the absolute magnitude and restores the
sign; the periodic version (lines 116-122) envelopes the amplitude,
multiplies by the waveform at the computed phase, adds the offset, and clamps
to the force range. -/
def computeRawMagnitude (e : Effect) (rawTime : ℕ) : Option ℚ :=
  match e.typeSpec with
  | .constantForce magnitude =>
    if magnitude ≥ 0 then
      applyEnvelope e.common rawTime magnitude
    else
      (applyEnvelope e.common rawTime (-magnitude)).map (fun x => -x)
  | .periodic p waveformAmplitude =>
    (applyEnvelope e.common rawTime p.amplitude).map fun modifiedAmplitude =>
      let rawMagnitude := modifiedAmplitude * waveformAmplitude (computePhase p rawTime) + p.offset
      min kEffectForceMagnitudeMaximum (max kEffectForceMagnitudeMinimum rawMagnitude)

/-- `Effect::ComputeMagnitude` from ForceFeedbackEffect.cpp, lines 153-160:
returns zero once `time >= duration.value_or(0)`; otherwise quantizes the
time to the sample period (`time - time % samplePeriodForComputations`, a
division that faults when the divisor is zero, modelled by `none`) and scales
the raw magnitude by the gain fraction. -/
def computeMagnitude (e : Effect) (time : ℕ) : Option ℚ :=
  if time ≥ e.common.duration.getD 0 then
    some kEffectForceMagnitudeZero
  else if e.common.samplePeriodForComputations = 0 then
    none
  else
    let rawTime : ℕ := time - time % e.common.samplePeriodForComputations
    (computeRawMagnitude e rawTime).map (· * e.common.gainFraction)

/-- The phase formula as the specification words it, with no rounding:
`((t / period) − ⌊t / period⌋) × 36000 + phase₀`, wrapped modulo 36000
(proper rational reduction into [0, 36000)). -/
def specPhaseFormula (p : SPeriodicParameters) (rawTime : ℕ) : ℚ :=
  let y : ℚ := ((rawTime : ℚ) / (p.period : ℚ) - ⌊(rawTime : ℚ) / (p.period : ℚ)⌋) * 36000 + p.phase
  y - 36000 * ⌊y / 36000⌋

/-- Periodic parameters used to separate `computePhase` from the unrounded
specification formula: period 7 ms, initial phase 0. -/
def c8CexParams : SPeriodicParameters :=
  { amplitude := 0, offset := 0, phase := 0, period := 7 }

/-- A constant-force effect whose optional duration was never set: gain 1, no
envelope, magnitude 5000, sample period for computations 1. -/
def c1CexEffect : Effect :=
  { common :=
      { duration := none
        startDelay := 0
        samplePeriod := 0
        samplePeriodForComputations := 1
        gainFraction := 1
        envelope := none }
    typeSpec := .constantForce 5000 }

/-- A fully parameterized constant-force effect reachable through the
parameter-setting interface: duration 1000 ms, requested sample period 0
(continuous, stored as 1 for computations). -/
def c9WitnessEffect : Effect :=
  { common := setSamplePeriod (setDuration defaultCommonParameters 1000) 0
    typeSpec := .constantForce 100 }

/-- Common parameters carrying an envelope but no duration: the configuration
whose fade-branch test dereferences the absent duration. -/
def c10CexParams : SCommonParameters :=
  { duration := none
    startDelay := 0
    samplePeriod := 0
    samplePeriodForComputations := 1
    gainFraction := 1
    envelope := some { attackTime := 10, attackLevel := 0, fadeTime := 10, fadeLevel := 0 } }

/-! ## Direction vector: 2-D polar/spherical conversion (ForceFeedbackParameters)

The `DirectionVector` implementation is not under src/; the repository's unit
test `ForceFeedbackDirectionVector_2D_Conversions`
(src/Source/Test/Case/ForceFeedbackDirectionVectorTest.cpp, lines 282-315)
pins the conversion at the concrete angles below, which we embed as data. -/

/-- The (polar, spherical) angle pairs asserted by the repository's 2-D
direction-vector conversion test, in centidegrees, copied from the test table
in ForceFeedbackDirectionVectorTest.cpp (each entry there lists Cartesian
coordinates, the polar angle and the spherical angle of one direction): the
test requires ingress from polar and egress to polar to interconvert with the
spherical representation exactly at these pairs. -/
def directionTestPolarSpherical : List (ℕ × ℕ) :=
  [(9000, 0), (18000, 9000), (27000, 18000), (0, 27000),
   (13500, 4500), (4500, 31500), (22500, 13500), (31500, 22500),
   (15000, 6000), (12000, 3000), (21000, 12000), (24000, 15000),
   (30000, 21000), (33000, 24000), (3000, 30000), (6000, 33000)]

/-- The Cartesian-direction/angle triple for the direction (1, 0) from the
same test table: polar angle 9000, spherical angle 0. -/
def directionTestUnitX : (ℤ × ℤ) × ℕ × ℕ := ((1, 0), 9000, 0)

/-- The ingress polar-to-spherical conversion as written in the
specification: `spherical = (polar + 9000) mod 36000`. -/
def specPolarToSpherical (polar : ℕ) : ℕ := (polar + 9000) % 36000

/-- The polar-to-spherical conversion that the repository's test table
realizes: the polar angle is measured from the negative-Y axis, 9000
centidegrees ahead of the spherical angle measured from the positive-X axis,
so the stored spherical coordinate is `(polar + 27000) mod 36000`. -/
def polarToSpherical (polar : ℕ) : ℕ := (polar + 27000) % 36000

/-- The egress spherical-to-polar conversion matching the test table:
`polar = (spherical + 9000) mod 36000`. -/
def sphericalToPolar (spherical : ℕ) : ℕ := (spherical + 9000) % 36000

/-! ## State-change event buffer (StateChangeEventBuffer)

The class declaration with its documented behavior is
src/Include/Xidi/Internal/StateChangeEventBuffer.h; the member-function
bodies (StateChangeEventBuffer.cpp) are not under src/ and are modelled from
that header's doc comments and the specification. -/

/-- A state-change event: element identifier and value are opaque for the
buffer laws, so they are bundled as one abstract payload with the timestamp
and sequence number (`SEvent` in StateChangeEventBuffer.h). -/
structure SEvent where
  payload : ℕ
  timestamp : ℕ
  sequence : ℕ
deriving DecidableEq

/-- `kEventBufferCapacityMax` from StateChangeEventBuffer.h: 1 MiB divided by
`sizeof(SEvent)` = 16 bytes. -/
def kEventBufferCapacityMax : ℕ := 1024 * 1024 / 16

/-- The event buffer: a bounded FIFO (index 0 oldest) plus an overflow flag
(`StateChangeEventBuffer` in StateChangeEventBuffer.h). -/
structure EventBuffer where
  capacity : ℕ
  events : List SEvent
  overflowed : Bool
deriving DecidableEq

/-- The default-constructed buffer: capacity 0 (disabled), empty, not
overflowed. -/
def emptyEventBuffer : EventBuffer := { capacity := 0, events := [], overflowed := false }

/-- Modelled from the spec: `StateChangeEventBuffer::AppendEvent`
(implementation not under src/).  A disabled buffer (capacity 0) drops the
event silently; otherwise the event is appended, and if the stored count
would exceed capacity − 1 (one slot always reserved empty) the oldest events
are discarded and the overflow flag raised. -/
def appendEvent (b : EventBuffer) (e : SEvent) : EventBuffer :=
  if b.capacity = 0 then b
  else if b.capacity - 1 < (b.events ++ [e]).length then
    { b with
      events := (b.events ++ [e]).drop ((b.events ++ [e]).length - (b.capacity - 1))
      overflowed := true }
  else
    { b with events := b.events ++ [e] }

/-- Appends a list of events in order. -/
def appendEvents (b : EventBuffer) (es : List SEvent) : EventBuffer :=
  es.foldl appendEvent b

/-- Modelled from the spec: `StateChangeEventBuffer::PopOldestEvents`
(implementation not under src/).  Removes at most `numEventsToPop` oldest
events and clears the overflow flag on any successful pop. -/
def popOldestEvents (b : EventBuffer) (numEventsToPop : ℕ) : EventBuffer :=
  let numPopped := min numEventsToPop b.events.length
  { b with
    events := b.events.drop numPopped
    overflowed := if 0 < numPopped then false else b.overflowed }

/-- Modelled from the spec: `StateChangeEventBuffer::SetCapacity`
(implementation not under src/).  The capacity is clamped to
`kEventBufferCapacityMax`; if the new capacity cannot hold the stored events
(more than capacity − 1 of them), the oldest excess events are discarded and
an overflow condition is triggered. -/
def setCapacity (b : EventBuffer) (capacity : ℕ) : EventBuffer :=
  let c := min capacity kEventBufferCapacityMax
  if c - 1 < b.events.length then
    { capacity := c
      events := b.events.drop (b.events.length - (c - 1))
      overflowed := true }
  else
    { b with capacity := c }

/-- One event-buffer operation. -/
inductive BufOp where
  | append (e : SEvent)
  | pop (n : ℕ)
  | setCap (c : ℕ)

/-- Runs one event-buffer operation. -/
def runBufOp (b : EventBuffer) : BufOp → EventBuffer
  | .append e => appendEvent b e
  | .pop n => popOldestEvents b n
  | .setCap c => setCapacity b c

/-- Runs a sequence of event-buffer operations. -/
def runBufOps (b : EventBuffer) (ops : List BufOp) : EventBuffer :=
  ops.foldl runBufOp b

/-- Whether executing `op` on buffer `b` drops at least one stored event
(the defining notion for the overflow flag): an append that displaces the
oldest stored event, or a capacity change that cannot keep all stored
events.  Popping drains events to the caller and drops none. -/
def bufOpDrops (b : EventBuffer) : BufOp → Bool
  | .append _ => b.capacity ≠ 0 && b.capacity - 1 < b.events.length + 1
  | .pop _ => false
  | .setCap c => min c kEventBufferCapacityMax - 1 < b.events.length

/-- Ghost history flag "at least one event has been dropped since the last
successful pop", threaded along a run of operations starting from flag `g`. -/
def droppedSinceLastPop (b : EventBuffer) (g : Bool) : List BufOp → Bool
  | [] => g
  | op :: ops =>
    let g' := match op with
      | .pop n => if 0 < min n b.events.length then false else g
      | _ => bufOpDrops b op || g
    droppedSinceLastPop (runBufOp b op) g' ops

/-! ## Virtual controller per-axis property transform (VirtualController)

VirtualController.cpp/.h are not under src/; the transform is modelled from
the specification's five-region description, with constants from the spec
and the repository's test driver. -/

/-- `kAnalogValueMax` (ControllerTypes.h). -/
def kAnalogValueMax : ℤ := 32767

/-- `kAnalogValueMin` (ControllerTypes.h). -/
def kAnalogValueMin : ℤ := -32768

/-- `kAxisDeadzoneMax` (VirtualController.h, not under src/; value fixed by
the spec's constants section). -/
def kAxisDeadzoneMax : ℕ := 10000

/-- `kAxisSaturationMax` (VirtualController.h, not under src/; value fixed by
the spec's constants section). -/
def kAxisSaturationMax : ℕ := 10000

/-- Deadzone cutoff on the raw axis scale:
`kAnalogMax × (deadzone / kAxisDeadzoneMax)`, applied symmetrically about
zero. -/
def deadzoneCutoff (deadzone : ℕ) : ℤ := kAnalogValueMax * deadzone / kAxisDeadzoneMax

/-- Saturation cutoff on the raw axis scale:
`kAnalogMax × (saturation / kAxisSaturationMax)`, applied symmetrically about
zero. -/
def saturationCutoff (saturation : ℕ) : ℤ := kAnalogValueMax * saturation / kAxisSaturationMax

/-- Modelled from the spec: the per-axis property transform
`apply_properties` of VirtualController.cpp (not under src/).  Maps a raw
value through five regions delimited by the symmetric deadzone and saturation
cutoffs — constant `rangeMin` below `−sat_cut`, linear from `rangeMin` to the
range neutral up to `−dz_cut`, neutral inside the deadzone, linear from
neutral to `rangeMax` up to `+sat_cut`, constant `rangeMax` above.  Linear
interpolation rounds toward negative infinity (the interpolation offsets are
non-negative, matching the source's double-to-integer truncation). -/
def axisRegionValue (deadzone saturation : ℕ) (rangeMin rangeMax : ℤ) (v : ℤ) : ℤ :=
  if v ≤ -saturationCutoff saturation then rangeMin
  else if v ≤ -deadzoneCutoff deadzone then
    rangeMin +
      (v + saturationCutoff saturation) * ((rangeMin + rangeMax) / 2 - rangeMin) /
        (saturationCutoff saturation - deadzoneCutoff deadzone)
  else if v ≤ deadzoneCutoff deadzone then (rangeMin + rangeMax) / 2
  else if v ≤ saturationCutoff saturation then
    (rangeMin + rangeMax) / 2 +
      (v - deadzoneCutoff deadzone) * (rangeMax - (rangeMin + rangeMax) / 2) /
        (saturationCutoff saturation - deadzoneCutoff deadzone)
  else rangeMax

/-- The full transform: the five-region value, clamped into the configured
range even in the presence of rounding. -/
def applyAxisProperties (deadzone saturation : ℕ) (rangeMin rangeMax : ℤ) (v : ℤ) : ℤ :=
  max rangeMin (min rangeMax (axisRegionValue deadzone saturation rangeMin rangeMax v))

/-! ## Mapper capabilities (Mapper)

Mapper.cpp is not under src/; the capability derivation is modelled from the
spec, with the required-element constants taken from
src/Include/Xidi/Internal/Mapper.h (lines 153-167). -/

/-- Virtual controller axes (`EAxis` in ControllerTypes.h). -/
inductive EAxis where
  | x | y | z | rotX | rotY | rotZ
deriving DecidableEq

/-- POV directions (`EPovDirection` in ControllerTypes.h). -/
inductive EPovDirection where
  | up | down | left | right
deriving DecidableEq

/-- A virtual controller element an element mapper can target
(`SElementIdentifier`): an axis, a button by 0-based index, or the POV. -/
inductive SElementIdentifier where
  | axis (a : EAxis)
  | button (n : ℕ)
  | pov
deriving DecidableEq

/-- Element mapper expressions (the tagged variants of the spec's data
model; the host-output variants target no virtual controller element). -/
inductive ElementMapper where
  | axisMapper (target : EAxis)
  | digitalAxisMapper (target : EAxis)
  | buttonMapper (idx : ℕ)
  | povMapper (dir : EPovDirection)
  | invertMapper (inner : ElementMapper)
  | splitMapper (positive negative : ElementMapper)
  | compoundMapper (c1 c2 c3 c4 : ElementMapper)
  | nullMapper

/-- The virtual elements an element mapper could contribute to
(`GetTargetElement` aggregated over an element mapper, recursively through
Invert/Split/Compound). -/
def targetElements : ElementMapper → List SElementIdentifier
  | .axisMapper t => [.axis t]
  | .digitalAxisMapper t => [.axis t]
  | .buttonMapper n => [.button n]
  | .povMapper _ => [.pov]
  | .invertMapper inner => targetElements inner
  | .splitMapper p n => targetElements p ++ targetElements n
  | .compoundMapper c1 c2 c3 c4 =>
    targetElements c1 ++ targetElements c2 ++ targetElements c3 ++ targetElements c4
  | .nullMapper => []

/-- `Mapper::kRequiredAxes` from src/Include/Xidi/Internal/Mapper.h line 157:
axes X and Y must be present on all virtual controllers. -/
def kRequiredAxes : List EAxis := [.x, .y]

/-- `Mapper::kMinNumButtons` from src/Include/Xidi/Internal/Mapper.h line
164. -/
def kMinNumButtons : ℕ := 2

/-- Aggregate capabilities (`SCapabilities`): present axes, button count,
POV presence. -/
structure SCapabilities where
  axes : List EAxis
  numButtons : ℕ
  hasPov : Bool
deriving DecidableEq

/-- One more than the largest button index targeted in a list of element
targets (0 when no button is targeted). -/
def maxButtonCount (targets : List SElementIdentifier) : ℕ :=
  targets.foldr (fun t acc => match t with | .button n => max (n + 1) acc | _ => acc) 0

/-- Whether a target element is the POV. -/
def isPovElement : SElementIdentifier → Bool
  | .pov => true
  | _ => false

/-- Modelled from the spec: the capability derivation of Mapper.cpp (not
under src/).  Element-mapper slots may be empty; the derived capabilities
take the union of targeted axes together with the required axes {X, Y}, the
button count as the largest targeted button index rounded up to the minimum
of 2, and POV presence exactly when some mapper targets the POV. -/
def deriveCapabilities (slots : List (Option ElementMapper)) : SCapabilities :=
  let targets := (slots.filterMap id).flatMap targetElements
  { axes := (kRequiredAxes ++ targets.filterMap fun t =>
      match t with | .axis a => some a | _ => none).dedup
    numButtons := max kMinNumButtons (maxButtonCount targets)
    hasPov := targets.any isPovElement }

/-- Whether an element mapper expression contains a Pov mapper. -/
def containsPovMapper : ElementMapper → Bool
  | .povMapper _ => true
  | .invertMapper inner => containsPovMapper inner
  | .splitMapper p n => containsPovMapper p || containsPovMapper n
  | .compoundMapper c1 c2 c3 c4 =>
    containsPovMapper c1 || containsPovMapper c2 || containsPovMapper c3 || containsPovMapper c4
  | _ => false

/-! ## Force-feedback registration (VirtualController / PhysicalController)

VirtualController.cpp and the physical-controller registry are not under
src/; registration is modelled from the spec's lifecycle rules. -/

/-- The registration state relevant to one virtual controller: the physical
device's registry of registered controllers (by identifier) and the
controller's own registered flag. -/
structure FFRegState where
  deviceRegistry : List ℕ
  controllerRegistered : Bool
  controllerId : ℕ
deriving DecidableEq

/-- Modelled from the spec: `VirtualController::ForceFeedbackRegister`
(VirtualController.cpp not under src/).  Registration succeeds and is
idempotent: an already-registered controller is left unchanged; otherwise the
controller is added to the physical device's registry. -/
def ffRegister (s : FFRegState) : FFRegState × Bool :=
  if s.controllerRegistered then (s, true)
  else
    ({ s with
        deviceRegistry := s.controllerId :: s.deviceRegistry
        controllerRegistered := true },
      true)

/-- Modelled from the spec: `VirtualController::ForceFeedbackUnregister`
(VirtualController.cpp not under src/).  Removes the controller's
registration from the physical device's registry. -/
def ffUnregister (s : FFRegState) : FFRegState :=
  if s.controllerRegistered then
    { s with
      deviceRegistry := s.deviceRegistry.erase s.controllerId
      controllerRegistered := false }
  else s

/-- Modelled from the spec: destruction of a virtual controller must
unregister it from the force-feedback device. -/
def destroyController (s : FFRegState) : FFRegState := ffUnregister s

/-! ## Virtual controller axis property setters (VirtualController)

VirtualController.cpp is not under src/; the setters are modelled from the
spec's validation rules ("All property setters validate *before* mutating"). -/

/-- Per-axis properties of a virtual controller (`SAxisProperties`). -/
structure SAxisProperties where
  deadzone : ℕ
  saturation : ℕ
  rangeMin : ℤ
  rangeMax : ℤ
  transformationsEnabled : Bool
deriving DecidableEq

/-- All six axes' property records. -/
abbrev AxisPropertyMap := EAxis → SAxisProperties

/-- Updates one axis's properties. -/
def updateAxis (props : AxisPropertyMap) (a : EAxis) (f : SAxisProperties → SAxisProperties) :
    AxisPropertyMap :=
  fun b => if b = a then f (props b) else props b

/-- Modelled from the spec: `VirtualController::SetAxisDeadzone`.  A
deadzone above `kAxisDeadzoneMax` is rejected with no state change. -/
def setAxisDeadzone (props : AxisPropertyMap) (a : EAxis) (v : ℕ) : AxisPropertyMap × Bool :=
  if kAxisDeadzoneMax < v then (props, false)
  else (updateAxis props a fun p => { p with deadzone := v }, true)

/-- Modelled from the spec: `VirtualController::SetAllAxisDeadzone`. -/
def setAllAxisDeadzone (props : AxisPropertyMap) (v : ℕ) : AxisPropertyMap × Bool :=
  if kAxisDeadzoneMax < v then (props, false)
  else (fun b => { props b with deadzone := v }, true)

/-- Modelled from the spec: `VirtualController::SetAxisSaturation`.  A
saturation above `kAxisSaturationMax` is rejected with no state change. -/
def setAxisSaturation (props : AxisPropertyMap) (a : EAxis) (v : ℕ) : AxisPropertyMap × Bool :=
  if kAxisSaturationMax < v then (props, false)
  else (updateAxis props a fun p => { p with saturation := v }, true)

/-- Modelled from the spec: `VirtualController::SetAllAxisSaturation`. -/
def setAllAxisSaturation (props : AxisPropertyMap) (v : ℕ) : AxisPropertyMap × Bool :=
  if kAxisSaturationMax < v then (props, false)
  else (fun b => { props b with saturation := v }, true)

/-- Modelled from the spec: `VirtualController::SetAxisRange`.  A range whose
minimum is not strictly below its maximum is rejected with no state change. -/
def setAxisRange (props : AxisPropertyMap) (a : EAxis) (lo hi : ℤ) : AxisPropertyMap × Bool :=
  if lo < hi then
    (updateAxis props a fun p => { p with rangeMin := lo, rangeMax := hi }, true)
  else (props, false)

/-- Modelled from the spec: `VirtualController::SetAllAxisRange`. -/
def setAllAxisRange (props : AxisPropertyMap) (lo hi : ℤ) : AxisPropertyMap × Bool :=
  if lo < hi then
    (fun b => { props b with rangeMin := lo, rangeMax := hi }, true)
  else (props, false)

/-- Default axis properties from the spec: deadzone 0, saturation 10000,
range (0, 65535), transformations enabled. -/
def defaultAxisProperties : SAxisProperties :=
  { deadzone := 0
    saturation := 10000
    rangeMin := 0
    rangeMax := 65535
    transformationsEnabled := true }

/-- The default per-axis property map. -/
def defaultAxisPropertyMap : AxisPropertyMap := fun _ => defaultAxisProperties

end Xidi

namespace Xidi

/-! ## Helper lemmas -/

/-- An envelope application cannot fault when the effect has a duration
value: the only `none` path reads an absent duration. -/
theorem applyEnvelope_isSome_of_duration (cp : SCommonParameters) (t : ℕ)
    (s : ℚ) (h : cp.duration.isSome) : (applyEnvelope cp t s).isSome := by
  rcases Option.isSome_iff_exists.mp h with ⟨d, hd⟩
  cases henv : cp.envelope with
  | none => simp [applyEnvelope, henv]
  | some env =>
    simp only [applyEnvelope, henv, hd]
    split
    · simp
    · split <;> simp

/-- Raw-magnitude computation cannot fault when the effect has a duration
value. -/
theorem computeRawMagnitude_isSome_of_duration (e : Effect) (rawTime : ℕ)
    (h : e.common.duration.isSome) : (computeRawMagnitude e rawTime).isSome := by
  obtain ⟨common, ts⟩ := e
  cases ts with
  | constantForce m =>
    simp only [computeRawMagnitude]
    split
    · exact applyEnvelope_isSome_of_duration common rawTime m h
    · simpa using applyEnvelope_isSome_of_duration common rawTime (-m) h
  | periodic p w =>
    simp only [computeRawMagnitude]
    simpa using applyEnvelope_isSome_of_duration common rawTime p.amplitude h

/-- Every single parameter-setting call keeps the computation-side sample
period positive. -/
theorem applyParamOp_spfc_pos (cp : SCommonParameters)
    (h : 1 ≤ cp.samplePeriodForComputations) (op : ParamOp) :
    1 ≤ (applyParamOp cp op).samplePeriodForComputations := by
  cases op with
  | opSetSamplePeriod p =>
    simp [applyParamOp, setSamplePeriod]
    split <;> omega
  | opSetDuration d => exact h
  | opSetStartDelay d => exact h
  | opSetGainFraction g => exact h
  | opSetEnvelope e => exact h

/-- The positive-sample-period invariant is preserved along any sequence of
parameter-setting calls. -/
theorem applyParamOps_spfc_pos (ops : List ParamOp) (cp : SCommonParameters)
    (h : 1 ≤ cp.samplePeriodForComputations) :
    1 ≤ (applyParamOps cp ops).samplePeriodForComputations := by
  induction ops generalizing cp with
  | nil => exact h
  | cons op ops ih => exact ih (applyParamOp cp op) (applyParamOp_spfc_pos cp h op)

/-! ## Claim theorems -/

/-- Claim C1, counterexample: a constant-force effect whose optional duration
is absent is not treated as infinite.  At time 100 (after start, no start
delay, effect conceptually running) `Effect::ComputeMagnitude` returns zero,
even though the enveloped, gain-scaled magnitude of the effect at that time
is 5000, because `duration.value_or(0)` turns an absent duration into a zero
duration. -/
theorem computeMagnitude_absent_duration_counterexample :
    computeMagnitude c1CexEffect 100 = some kEffectForceMagnitudeZero ∧
    computeRawMagnitude c1CexEffect 100 = some 5000 ∧
    (5000 : ℚ) * c1CexEffect.common.gainFraction ≠ kEffectForceMagnitudeZero := by
  refine ⟨?_, ?_, ?_⟩
  · simp [computeMagnitude, c1CexEffect, kEffectForceMagnitudeZero]
  · simp [computeRawMagnitude, c1CexEffect, applyEnvelope]
  · simp [c1CexEffect, kEffectForceMagnitudeZero]

/-- Claim C1, amended: an effect whose optional duration is absent is treated
as having zero duration, not infinite duration: `Effect::ComputeMagnitude`
returns zero at every time, because the absent duration is read as
`duration.value_or(0)` and the time comparison `time >= 0` always holds. -/
theorem computeMagnitude_absent_duration_zero (e : Effect) (t : ℕ)
    (h : e.common.duration = none) :
    computeMagnitude e t = some kEffectForceMagnitudeZero := by
  simp [computeMagnitude, h]

/-- Witness for the amended claim C1 at a concrete input. -/
theorem computeMagnitude_absent_duration_zero_witness :
    computeMagnitude c1CexEffect 33 = some kEffectForceMagnitudeZero :=
  computeMagnitude_absent_duration_zero c1CexEffect 33 rfl

/-- Claim C2, counterexample: the repository's 2-D conversion test stores the
polar angle 9000 (the Cartesian direction (1, 0)) as spherical angle 0, but
the claimed ingress formula `(polar + 9000) mod 36000` yields 18000 there. -/
theorem polar_ingress_formula_counterexample :
    (9000, 0) ∈ directionTestPolarSpherical ∧ specPolarToSpherical 9000 = 18000 ∧
    (18000 : ℕ) ≠ 0 := by
  refine ⟨?_, by decide, by decide⟩
  simp [directionTestPolarSpherical]

/-- Claim C2, amended: on every pair of the repository's 2-D conversion test
table, the stored spherical coordinate is `(polar + 27000) mod 36000`
(equivalently `(polar − 9000) mod 36000`), and the egress conversion
`polar = (spherical + 9000) mod 36000` inverts it; in particular the
Cartesian direction (1, 0) has spherical coordinate 0 and polar coordinate
9000, and egress after ingress is the identity on [0, 36000). -/
theorem polar_spherical_conversion (ps : ℕ × ℕ) (hmem : ps ∈ directionTestPolarSpherical)
    (p : ℕ) (hp : p < 36000) :
    polarToSpherical ps.1 = ps.2 ∧ sphericalToPolar ps.2 = ps.1 ∧
    sphericalToPolar (polarToSpherical p) = p ∧
    polarToSpherical directionTestUnitX.2.1 = directionTestUnitX.2.2 := by
  refine ⟨?_, ?_, ?_, by decide⟩
  · fin_cases hmem <;> decide
  · fin_cases hmem <;> decide
  · simp only [polarToSpherical, sphericalToPolar]
    omega

/-- Witness for the amended claim C2 at a concrete table entry and angle. -/
theorem polar_spherical_conversion_witness :
    polarToSpherical 9000 = 0 ∧ sphericalToPolar 0 = 9000 ∧
    sphericalToPolar (polarToSpherical 12345) = 12345 ∧
    polarToSpherical directionTestUnitX.2.1 = directionTestUnitX.2.2 :=
  polar_spherical_conversion (9000, 0) (by simp [directionTestPolarSpherical]) 12345
    (by decide)

/-- Claim C6: force-feedback registration is idempotent and reversible.  From
an unregistered controller not present in the physical device's registry:
registering succeeds; registering again succeeds and leaves the state
unchanged; the controller appears in the registry exactly once;
unregistering restores the original state; and destruction removes the
controller from the registry. -/
theorem forceFeedback_registration (s : FFRegState)
    (hreg : s.controllerRegistered = false)
    (hmem : s.controllerId ∉ s.deviceRegistry) :
    (ffRegister s).2 = true ∧
    ffRegister (ffRegister s).1 = ((ffRegister s).1, true) ∧
    (ffRegister s).1.deviceRegistry.count s.controllerId = 1 ∧
    (ffRegister s).1.controllerRegistered = true ∧
    ffUnregister (ffRegister s).1 = s ∧
    s.controllerId ∉ (destroyController (ffRegister s).1).deviceRegistry := by
  obtain ⟨reg, flag, cid⟩ := s
  simp only at hreg hmem
  subst hreg
  refine ⟨rfl, ?_, ?_, rfl, ?_, ?_⟩
  · simp [ffRegister]
  · simp only [ffRegister]
    simp [List.count_cons_self, List.count_eq_zero.mpr hmem]
  · simp [ffRegister, ffUnregister]
  · simpa [destroyController, ffRegister, ffUnregister] using hmem

/-- Witness for claim C6 at a concrete state. -/
theorem forceFeedback_registration_witness :
    (ffRegister ⟨[], false, 7⟩).2 = true ∧
    ffRegister (ffRegister ⟨[], false, 7⟩).1 = ((ffRegister ⟨[], false, 7⟩).1, true) ∧
    (ffRegister ⟨[], false, 7⟩).1.deviceRegistry.count 7 = 1 ∧
    (ffRegister ⟨[], false, 7⟩).1.controllerRegistered = true ∧
    ffUnregister (ffRegister ⟨[], false, 7⟩).1 = ⟨[], false, 7⟩ ∧
    (7 : ℕ) ∉ (destroyController (ffRegister ⟨[], false, 7⟩).1).deviceRegistry :=
  forceFeedback_registration ⟨[], false, 7⟩ rfl (by simp)

/-- Claim C7: every axis property setter validates its arguments before
mutating: a deadzone above `kAxisDeadzoneMax`, a saturation above
`kAxisSaturationMax`, or a range whose minimum is not strictly below its
maximum is rejected with `false` and leaves every axis's deadzone,
saturation, and range values unchanged, for the single-axis and the all-axes
forms alike. -/
theorem property_setters_validate (props : AxisPropertyMap) (a : EAxis) (dz sat : ℕ)
    (lo hi : ℤ) :
    (kAxisDeadzoneMax < dz →
      setAxisDeadzone props a dz = (props, false) ∧
      setAllAxisDeadzone props dz = (props, false)) ∧
    (kAxisSaturationMax < sat →
      setAxisSaturation props a sat = (props, false) ∧
      setAllAxisSaturation props sat = (props, false)) ∧
    (¬lo < hi →
      setAxisRange props a lo hi = (props, false) ∧
      setAllAxisRange props lo hi = (props, false)) := by
  refine ⟨fun h => ⟨?_, ?_⟩, fun h => ⟨?_, ?_⟩, fun h => ⟨?_, ?_⟩⟩ <;>
    simp [setAxisDeadzone, setAllAxisDeadzone, setAxisSaturation, setAllAxisSaturation,
      setAxisRange, setAllAxisRange, h]

/-- Witness for claim C7 at concrete invalid arguments. -/
theorem property_setters_validate_witness :
    setAxisDeadzone defaultAxisPropertyMap .x (kAxisDeadzoneMax + 1) =
      (defaultAxisPropertyMap, false) ∧
    setAllAxisSaturation defaultAxisPropertyMap (kAxisSaturationMax + 1) =
      (defaultAxisPropertyMap, false) ∧
    setAxisRange defaultAxisPropertyMap .y 50000 50000 = (defaultAxisPropertyMap, false) := by
  have h := property_setters_validate defaultAxisPropertyMap .x (kAxisDeadzoneMax + 1)
    (kAxisSaturationMax + 1) 50000 50000
  have h' := property_setters_validate defaultAxisPropertyMap .y (kAxisDeadzoneMax + 1)
    (kAxisSaturationMax + 1) 50000 50000
  exact ⟨(h.1 (by decide)).1, (h.2.1 (by decide)).2, (h'.2.2 (by decide)).1⟩

/-- Claim C10: `Effect::ApplyEnvelope` is total under the precondition that
every effect carrying an envelope also carries a duration value (the fade
branch is the only place the duration optional is read unchecked), and an
effect with an envelope but no duration reaches the unguarded
`duration.value()` access: at a time past the attack window the evaluation
faults. -/
theorem applyEnvelope_totality (cp : SCommonParameters) (t : ℕ)
    (s : ℚ) (h : cp.envelope.isSome → cp.duration.isSome) :
    (applyEnvelope cp t s).isSome ∧
    applyEnvelope c10CexParams 100 5000 = none := by
  refine ⟨?_, ?_⟩
  · cases henv : cp.envelope with
    | none => simp [applyEnvelope, henv]
    | some env =>
      exact applyEnvelope_isSome_of_duration cp t s (h (by simp [henv]))
  · simp [applyEnvelope, c10CexParams]

/-- Witness for claim C10 at a concrete input with the precondition
satisfied. -/
theorem applyEnvelope_totality_witness :
    (applyEnvelope defaultCommonParameters 0 1).isSome ∧
    applyEnvelope c10CexParams 100 5000 = none :=
  applyEnvelope_totality defaultCommonParameters 0 1 (by simp [defaultCommonParameters])

/-- Claim C9: `Effect::ComputeMagnitude` divides by
`samplePeriodForComputations` without a guard, but a default-constructed
effect starts with the computation-side sample period at 1, every sequence of
parameter-setting calls keeps it at least 1 (a requested sample period of 0,
meaning continuous, is stored as 1 for computations), and under that
invariant the modulo operation never has a zero divisor and
`ComputeMagnitude` is total. -/
theorem computeMagnitude_total (ops : List ParamOp) (e : Effect) (t : ℕ)
    (h : 1 ≤ e.common.samplePeriodForComputations) :
    defaultCommonParameters.samplePeriodForComputations = 1 ∧
    1 ≤ (applyParamOps defaultCommonParameters ops).samplePeriodForComputations ∧
    (computeMagnitude e t).isSome := by
  refine ⟨rfl, applyParamOps_spfc_pos ops defaultCommonParameters (le_refl 1), ?_⟩
  unfold computeMagnitude
  split
  · simp
  · next h1 =>
    split
    · next h2 => omega
    · next h2 =>
      cases hd : e.common.duration with
      | none => simp [hd] at h1
      | some d =>
        simpa using
          computeRawMagnitude_isSome_of_duration e
            (t - t % e.common.samplePeriodForComputations) (by simp [hd])

/-- Witness for claim C9 at a concrete input. -/
theorem computeMagnitude_total_witness : (computeMagnitude c9WitnessEffect 5).isSome :=
  (computeMagnitude_total [] c9WitnessEffect 5 (by decide)).2.2

/-- The conditional 36000-reduction inside `PeriodicEffect::ComputePhase`,
written out over the rounded phase value. -/
theorem computePhase_eq (p : SPeriodicParameters) (t : ℕ) :
    computePhase p t =
      if ((roundQ (((t : ℚ) / (p.period : ℚ) - ⌊(t : ℚ) / (p.period : ℚ)⌋) * 36000
            + p.phase) : ℤ) : ℚ) ≥ 36000
      then ((roundQ (((t : ℚ) / (p.period : ℚ) - ⌊(t : ℚ) / (p.period : ℚ)⌋) * 36000
            + p.phase) : ℤ) : ℚ) - 36000
      else ((roundQ (((t : ℚ) / (p.period : ℚ) - ⌊(t : ℚ) / (p.period : ℚ)⌋) * 36000
            + p.phase) : ℤ) : ℚ) := rfl

/-- Claim C8, counterexample: at period 7 ms, time 1 ms, phase 0, the
computed phase is the rounded value 5143, while the claimed formula
`((t / period) − ⌊t / period⌋) × 36000 + phase₀` wrapped modulo 36000 is the
non-integer 36000/7; the two differ, so the computed phase does not equal
the unrounded formula. -/
theorem computePhase_formula_counterexample :
    computePhase c8CexParams 1 = 5143 ∧ specPhaseFormula c8CexParams 1 = 36000 / 7 ∧
    computePhase c8CexParams 1 ≠ specPhaseFormula c8CexParams 1 := by
  have h1 : computePhase c8CexParams 1 = 5143 := by
    norm_num [computePhase, roundQ, c8CexParams]
  have h2 : specPhaseFormula c8CexParams 1 = 36000 / 7 := by
    norm_num [specPhaseFormula, c8CexParams]
  exact ⟨h1, h2, by rw [h1, h2]; norm_num⟩

/-- Claim C8, amended: for every periodic effect with period ≥ 1 ms and
initial phase in [0, 35999] centidegrees, the computed phase at any raw
time equals `round(((t / period) − ⌊t / period⌋) × 36000 + phase₀)` (rounding
to the nearest centidegree, as the code quantizes) wrapped modulo 36000, and
the result always lies in [0, 36000); in particular the phase is well
defined at every time with no non-termination. -/
theorem computePhase_rounded_wrapped (p : SPeriodicParameters) (t : ℕ)
    (_hperiod : 1 ≤ p.period) (hphase0 : 0 ≤ p.phase) (hphase1 : p.phase ≤ 35999) :
    computePhase p t =
      ((roundQ (((t : ℚ) / (p.period : ℚ) - ⌊(t : ℚ) / (p.period : ℚ)⌋) * 36000
          + p.phase) % 36000 : ℤ) : ℚ) ∧
    0 ≤ computePhase p t ∧ computePhase p t < 36000 := by
  rw [computePhase_eq]
  set q : ℚ := (t : ℚ) / (p.period : ℚ) with hq
  set r : ℤ := roundQ ((q - ⌊q⌋) * 36000 + p.phase) with hrdef
  have hfrac0 : 0 ≤ q - ⌊q⌋ := by rw [Int.self_sub_floor]; exact Int.fract_nonneg q
  have hfrac1 : q - ⌊q⌋ < 1 := by rw [Int.self_sub_floor]; exact Int.fract_lt_one q
  have hy0 : 0 ≤ (q - ⌊q⌋) * 36000 + p.phase :=
    add_nonneg (mul_nonneg hfrac0 (by norm_num)) hphase0
  have hy1 : (q - ⌊q⌋) * 36000 + p.phase < 71999 := by
    have := mul_lt_mul_of_pos_right hfrac1 (show (0 : ℚ) < 36000 by norm_num)
    rw [one_mul] at this
    linarith
  have hr0 : 0 ≤ r := by
    rw [hrdef]
    unfold roundQ
    exact Int.le_floor.mpr (by push_cast; linarith)
  have hr1 : r < 72000 := by
    rw [hrdef]
    unfold roundQ
    exact Int.floor_lt.mpr (by push_cast; linarith)
  refine ⟨?_, ?_, ?_⟩
  · split
    · next hbr =>
      have h36 : (36000 : ℤ) ≤ r := by exact_mod_cast hbr
      have hmod : r % 36000 = r - 36000 := by omega
      rw [hmod]
      push_cast
      ring
    · next hbr =>
      have h36 : r < 36000 := by exact_mod_cast not_le.mp hbr
      have hmod : r % 36000 = r := by omega
      rw [hmod]
  · split
    · next hbr => linarith
    · next hbr => exact_mod_cast hr0
  · split
    · next hbr =>
      have : (r : ℚ) < 72000 := by exact_mod_cast hr1
      linarith
    · next hbr => exact lt_of_not_le hbr

/-- Witness for the amended claim C8 at a concrete input. -/
theorem computePhase_rounded_wrapped_witness :
    0 ≤ computePhase c8CexParams 3 ∧ computePhase c8CexParams 3 < 36000 :=
  (computePhase_rounded_wrapped c8CexParams 3 (by decide) (by decide) (by decide)).2

/-- Appending never changes the buffer capacity. -/
theorem appendEvent_capacity (b : EventBuffer) (e : SEvent) :
    (appendEvent b e).capacity = b.capacity := by
  unfold appendEvent
  split
  · rfl
  · split <;> rfl

/-- One append obeys the count law when the stored count respects the
one-reserved-slot bound. -/
theorem appendEvent_length (b : EventBuffer) (e : SEvent)
    (h : b.events.length ≤ b.capacity - 1) :
    (appendEvent b e).events.length = min (b.capacity - 1) (b.events.length + 1) := by
  unfold appendEvent
  split
  · next hc => simp only [hc]; omega
  · split
    · next hlen =>
      simp only [List.length_drop, List.length_append, List.length_cons,
        List.length_nil] at *
      omega
    · next hlen =>
      simp only [List.length_append, List.length_cons, List.length_nil] at *
      omega

/-- Appending a sequence of events obeys the count law
`count_after = min(capacity − 1, count_before + appended)`. -/
theorem appendEvents_length (es : List SEvent) (b : EventBuffer)
    (h : b.events.length ≤ b.capacity - 1) :
    (appendEvents b es).events.length = min (b.capacity - 1) (b.events.length + es.length) := by
  induction es generalizing b with
  | nil => simp only [appendEvents, List.foldl_nil, List.length_nil]; omega
  | cons e es ih =>
    have hlen := appendEvent_length b e h
    have hcap := appendEvent_capacity b e
    have hinv : (appendEvent b e).events.length ≤ (appendEvent b e).capacity - 1 := by
      rw [hlen, hcap]; omega
    have := ih (appendEvent b e) hinv
    rw [hcap, hlen] at this
    simp only [appendEvents, List.foldl_cons, List.length_cons] at *
    omega

/-- The overflow flag after one operation, expressed through `bufOpDrops`:
an operation that drops a stored event raises it, a successful pop clears
it, and otherwise it is unchanged. -/
theorem runBufOp_overflowed (b : EventBuffer) (op : BufOp) :
    (runBufOp b op).overflowed =
      (match op with
        | .pop n => if 0 < min n b.events.length then false else b.overflowed
        | _ => bufOpDrops b op || b.overflowed) := by
  cases op with
  | append e =>
    by_cases hc : b.capacity = 0
    · simp [runBufOp, appendEvent, bufOpDrops, hc]
    · by_cases hlen : b.capacity - 1 < b.events.length + 1
      · simp [runBufOp, appendEvent, bufOpDrops, hc, hlen]
      · simp [runBufOp, appendEvent, bufOpDrops, hc, hlen]
  | pop n => simp [runBufOp, popOldestEvents]
  | setCap c =>
    by_cases hlen : min c kEventBufferCapacityMax - 1 < b.events.length
    · simp [runBufOp, setCapacity, bufOpDrops, hlen]
    · simp [runBufOp, setCapacity, bufOpDrops, hlen]

/-- Along any run of operations, the overflow flag tracks exactly the ghost
history "an event has been dropped since the last successful pop". -/
theorem runBufOps_overflowed (ops : List BufOp) (b : EventBuffer) :
    (runBufOps b ops).overflowed = droppedSinceLastPop b b.overflowed ops := by
  induction ops generalizing b with
  | nil => rfl
  | cons op ops ih =>
    calc (runBufOps b (op :: ops)).overflowed
        = (runBufOps (runBufOp b op) ops).overflowed := rfl
      _ = droppedSinceLastPop (runBufOp b op) (runBufOp b op).overflowed ops :=
          ih (runBufOp b op)
      _ = droppedSinceLastPop b b.overflowed (op :: ops) := by
          rw [runBufOp_overflowed]
          cases op <;> rfl

/-- Claim C3: the event-buffer laws.  Starting from any buffer whose stored
count respects the one-reserved-slot bound, the count after a number of
appends is `min(capacity − 1, count_before + appended)`; `pop_oldest(n)`
removes exactly `min(n, count)` events — in particular at most `n` — and
clears the overflow flag on any successful pop; and along any sequence of
append, set-capacity and pop operations the overflow flag is set if and only
if at least one stored event has been dropped since the last successful
pop. -/
theorem eventBuffer_laws (b : EventBuffer) (es : List SEvent) (n : ℕ) (ops : List BufOp)
    (hinv : b.events.length ≤ b.capacity - 1) :
    (appendEvents b es).events.length = min (b.capacity - 1) (b.events.length + es.length) ∧
    ((popOldestEvents b n).events.length = b.events.length - min n b.events.length ∧
      (0 < min n b.events.length → (popOldestEvents b n).overflowed = false)) ∧
    (runBufOps b ops).overflowed = droppedSinceLastPop b b.overflowed ops := by
  refine ⟨appendEvents_length es b hinv, ⟨?_, ?_⟩, runBufOps_overflowed ops b⟩
  · simp [popOldestEvents]
  · intro hpop
    simp [popOldestEvents, hpop]

/-- Witness for claim C3 at a concrete buffer and operation sequence. -/
theorem eventBuffer_laws_witness :
    (appendEvents ⟨4, [], false⟩ [⟨1, 0, 0⟩, ⟨2, 0, 1⟩]).events.length = min 3 2 ∧
    ((popOldestEvents (⟨4, [], false⟩ : EventBuffer) 1).events.length = 0 - min 1 0 ∧
      (0 < min 1 0 → (popOldestEvents (⟨4, [], false⟩ : EventBuffer) 1).overflowed = false)) ∧
    (runBufOps ⟨4, [], false⟩ [.append ⟨1, 0, 0⟩]).overflowed =
      droppedSinceLastPop ⟨4, [], false⟩ false [.append ⟨1, 0, 0⟩] :=
  eventBuffer_laws ⟨4, [], false⟩ [⟨1, 0, 0⟩, ⟨2, 0, 1⟩] 1 [.append ⟨1, 0, 0⟩]
    (by decide)

/-- An element mapper's target list mentions the POV exactly when the mapper
contains a Pov mapper, recursively through Invert, Split and Compound. -/
theorem targetElements_any_pov (m : ElementMapper) :
    (targetElements m).any isPovElement = containsPovMapper m := by
  induction m with
  | axisMapper t => rfl
  | digitalAxisMapper t => rfl
  | buttonMapper n => rfl
  | povMapper d => rfl
  | invertMapper inner ih => simpa [targetElements, containsPovMapper] using ih
  | splitMapper p n ihp ihn =>
    simp [targetElements, containsPovMapper, List.any_append, ihp, ihn]
  | compoundMapper c1 c2 c3 c4 ih1 ih2 ih3 ih4 =>
    simp [targetElements, containsPovMapper, List.any_append, ih1, ih2, ih3, ih4,
      Bool.or_assoc]
  | nullMapper => rfl

/-- Claim C5: for every collection of element-mapper slots, the derived
capabilities report axes X and Y present even if no element mapper targets
them; the button count is the largest button index targeted (as a count, one
more than the largest 0-based index) rounded up to the minimum of 2; and a
POV is reported present if and only if at least one Pov mapper occurs among
the element mappers. -/
theorem mapper_capabilities (slots : List (Option ElementMapper)) :
    EAxis.x ∈ (deriveCapabilities slots).axes ∧
    EAxis.y ∈ (deriveCapabilities slots).axes ∧
    (deriveCapabilities slots).numButtons =
      max kMinNumButtons (maxButtonCount ((slots.filterMap id).flatMap targetElements)) ∧
    kMinNumButtons ≤ (deriveCapabilities slots).numButtons ∧
    ((deriveCapabilities slots).hasPov = true ↔
      ∃ m ∈ slots.filterMap id, containsPovMapper m = true) := by
  refine ⟨?_, ?_, rfl, le_max_left _ _, ?_⟩
  · simp [deriveCapabilities, kRequiredAxes]
  · simp [deriveCapabilities, kRequiredAxes]
  · simp only [deriveCapabilities, List.any_eq_true, List.mem_flatMap]
    constructor
    · rintro ⟨t, ⟨m, hm, ht⟩, hp⟩
      refine ⟨m, hm, ?_⟩
      rw [← targetElements_any_pov]
      exact List.any_eq_true.mpr ⟨t, ht, hp⟩
    · rintro ⟨m, hm, hc⟩
      rw [← targetElements_any_pov] at hc
      rcases List.any_eq_true.mp hc with ⟨t, ht, hp⟩
      exact ⟨t, ⟨m, hm, ht⟩, hp⟩

/-- A floor-rounded linear interpolation step with non-negative offset and
slope is non-negative. -/
theorem interp_nonneg {x m d : ℤ} (hd : 0 < d) (hx : 0 ≤ x) (hm : 0 ≤ m) :
    0 ≤ x * m / d :=
  Int.ediv_nonneg (mul_nonneg hx hm) hd.le

/-- A floor-rounded linear interpolation step does not exceed its full
span. -/
theorem interp_le {x m d : ℤ} (hd : 0 < d) (hx : x ≤ d) (hm : 0 ≤ m) : x * m / d ≤ m := by
  have h1 : x * m ≤ d * m := mul_le_mul_of_nonneg_right hx hm
  have h2 : x * m / d ≤ d * m / d := Int.ediv_le_ediv hd h1
  rwa [Int.mul_ediv_cancel_left m (ne_of_gt hd)] at h2

/-- A floor-rounded linear interpolation step is monotone in its offset. -/
theorem interp_mono {x y m d : ℤ} (hd : 0 < d) (hxy : x ≤ y) (hm : 0 ≤ m) :
    x * m / d ≤ y * m / d :=
  Int.ediv_le_ediv hd (mul_le_mul_of_nonneg_right hxy hm)

/-- The five-region value always lies in the configured range. -/
theorem axisRegionValue_bounds (dz sat : ℕ) (lo hi v : ℤ) (hrange : lo < hi)
    (hcut : deadzoneCutoff dz < saturationCutoff sat) :
    lo ≤ axisRegionValue dz sat lo hi v ∧ axisRegionValue dz sat lo hi v ≤ hi := by
  have hD : (0 : ℤ) < saturationCutoff sat - deadzoneCutoff dz := by omega
  have hM2 : (0 : ℤ) ≤ (lo + hi) / 2 - lo := by omega
  have hM4 : (0 : ℤ) ≤ hi - (lo + hi) / 2 := by omega
  unfold axisRegionValue
  split_ifs with h1 h2 h3 h4
  · omega
  · have hnn := interp_nonneg (x := v + saturationCutoff sat) hD (by omega) hM2
    have hub := interp_le (x := v + saturationCutoff sat) hD (by omega) hM2
    constructor <;> linarith
  · omega
  · have hnn := interp_nonneg (x := v - deadzoneCutoff dz) hD (by omega) hM4
    have hub := interp_le (x := v - deadzoneCutoff dz) hD (by omega) hM4
    constructor <;> linarith
  · omega

/-- The five-region value is monotone non-decreasing in the raw axis
value. -/
theorem axisRegionValue_mono (dz sat : ℕ) (lo hi a b : ℤ) (hrange : lo < hi)
    (hcut : deadzoneCutoff dz < saturationCutoff sat) (hab : a ≤ b) :
    axisRegionValue dz sat lo hi a ≤ axisRegionValue dz sat lo hi b := by
  have hD : (0 : ℤ) < saturationCutoff sat - deadzoneCutoff dz := by omega
  have hM2 : (0 : ℤ) ≤ (lo + hi) / 2 - lo := by omega
  have hM4 : (0 : ℤ) ≤ hi - (lo + hi) / 2 := by omega
  have hf2lb : ∀ x : ℤ, -saturationCutoff sat ≤ x →
      lo ≤ lo + (x + saturationCutoff sat) * ((lo + hi) / 2 - lo) /
        (saturationCutoff sat - deadzoneCutoff dz) := by
    intro x hx
    have := interp_nonneg (x := x + saturationCutoff sat) hD (by omega) hM2
    linarith
  have hf2ub : ∀ x : ℤ, x ≤ -deadzoneCutoff dz →
      lo + (x + saturationCutoff sat) * ((lo + hi) / 2 - lo) /
          (saturationCutoff sat - deadzoneCutoff dz) ≤ (lo + hi) / 2 := by
    intro x hx
    have := interp_le (x := x + saturationCutoff sat) hD (by omega) hM2
    linarith
  have hf4lb : ∀ x : ℤ, deadzoneCutoff dz ≤ x →
      (lo + hi) / 2 ≤ (lo + hi) / 2 + (x - deadzoneCutoff dz) * (hi - (lo + hi) / 2) /
        (saturationCutoff sat - deadzoneCutoff dz) := by
    intro x hx
    have := interp_nonneg (x := x - deadzoneCutoff dz) hD (by omega) hM4
    linarith
  have hf4ub : ∀ x : ℤ, x ≤ saturationCutoff sat →
      (lo + hi) / 2 + (x - deadzoneCutoff dz) * (hi - (lo + hi) / 2) /
          (saturationCutoff sat - deadzoneCutoff dz) ≤ hi := by
    intro x hx
    have := interp_le (x := x - deadzoneCutoff dz) hD (by omega) hM4
    linarith
  have hf2mono : ∀ x y : ℤ, x ≤ y →
      lo + (x + saturationCutoff sat) * ((lo + hi) / 2 - lo) /
          (saturationCutoff sat - deadzoneCutoff dz) ≤
        lo + (y + saturationCutoff sat) * ((lo + hi) / 2 - lo) /
          (saturationCutoff sat - deadzoneCutoff dz) := by
    intro x y hxy
    have := interp_mono (x := x + saturationCutoff sat) (y := y + saturationCutoff sat)
      hD (by omega) hM2
    linarith
  have hf4mono : ∀ x y : ℤ, x ≤ y →
      (lo + hi) / 2 + (x - deadzoneCutoff dz) * (hi - (lo + hi) / 2) /
          (saturationCutoff sat - deadzoneCutoff dz) ≤
        (lo + hi) / 2 + (y - deadzoneCutoff dz) * (hi - (lo + hi) / 2) /
          (saturationCutoff sat - deadzoneCutoff dz) := by
    intro x y hxy
    have := interp_mono (x := x - deadzoneCutoff dz) (y := y - deadzoneCutoff dz)
      hD (by omega) hM4
    linarith
  unfold axisRegionValue
  split_ifs with h1 h2 h3 h4 h5 h6 h7 h8 h9 h10 h11 h12 h13 h14 h15 h16 h17 h18 h19
    <;> first
      | omega
      | (first
          | exact hf2lb _ (by omega)
          | exact hf2mono _ _ hab
          | exact hf2ub _ (by omega)
          | exact hf4lb _ (by omega)
          | exact hf4mono _ _ hab
          | exact hf4ub _ (by omega)
          | (have hxa := hf2ub a (by omega); have hxb := hf4lb b (by omega); linarith))

/-- Claim C4: for every axis configuration with ordered cutoffs and a valid
range, and every raw value in the analog range, `apply_properties` maps the
value through the five regions delimited by the deadzone and saturation
cutoffs (range minimum below `−sat_cut`, linear from the minimum to the
range neutral `(min + max)/2` up to `−dz_cut`, neutral inside the deadzone,
linear from neutral to the maximum up to `+sat_cut`, range maximum above);
the output is monotone non-decreasing in the raw value; and the output
always lies within the configured range. -/
theorem applyAxisProperties_regions (dz sat : ℕ) (lo hi v : ℤ)
    (hrange : lo < hi) (hcut : deadzoneCutoff dz < saturationCutoff sat)
    (_hv1 : kAnalogValueMin ≤ v) (_hv2 : v ≤ kAnalogValueMax) :
    (v ≤ -saturationCutoff sat → applyAxisProperties dz sat lo hi v = lo) ∧
    (-saturationCutoff sat < v → v ≤ -deadzoneCutoff dz →
      applyAxisProperties dz sat lo hi v =
        lo + (v + saturationCutoff sat) * ((lo + hi) / 2 - lo) /
          (saturationCutoff sat - deadzoneCutoff dz)) ∧
    (-deadzoneCutoff dz < v → v ≤ deadzoneCutoff dz →
      applyAxisProperties dz sat lo hi v = (lo + hi) / 2) ∧
    (deadzoneCutoff dz < v → v ≤ saturationCutoff sat →
      applyAxisProperties dz sat lo hi v =
        (lo + hi) / 2 + (v - deadzoneCutoff dz) * (hi - (lo + hi) / 2) /
          (saturationCutoff sat - deadzoneCutoff dz)) ∧
    (saturationCutoff sat < v → applyAxisProperties dz sat lo hi v = hi) ∧
    (∀ w, v ≤ w → applyAxisProperties dz sat lo hi v ≤ applyAxisProperties dz sat lo hi w) ∧
    lo ≤ applyAxisProperties dz sat lo hi v ∧ applyAxisProperties dz sat lo hi v ≤ hi := by
  have hZ0 : 0 ≤ deadzoneCutoff dz := by
    simp only [deadzoneCutoff, kAnalogValueMax, kAxisDeadzoneMax]
    omega
  have key : ∀ u : ℤ, applyAxisProperties dz sat lo hi u = axisRegionValue dz sat lo hi u := by
    intro u
    have hb := axisRegionValue_bounds dz sat lo hi u hrange hcut
    unfold applyAxisProperties
    rw [min_eq_right hb.2, max_eq_right hb.1]
  refine ⟨fun h => ?_, fun h1 h2 => ?_, fun h1 h2 => ?_, fun h1 h2 => ?_, fun h => ?_,
    fun w hw => ?_, ?_, ?_⟩
  · rw [key v]; unfold axisRegionValue; rw [if_pos h]
  · rw [key v]; unfold axisRegionValue; rw [if_neg (by omega), if_pos h2]
  · rw [key v]; unfold axisRegionValue; rw [if_neg (by omega), if_neg (by omega), if_pos h2]
  · rw [key v]; unfold axisRegionValue
    rw [if_neg (by omega), if_neg (by omega), if_neg (by omega), if_pos h2]
  · rw [key v]; unfold axisRegionValue
    rw [if_neg (by omega), if_neg (by omega), if_neg (by omega), if_neg (by omega)]
  · rw [key v, key w]; exact axisRegionValue_mono dz sat lo hi v w hrange hcut hw
  · rw [key v]; exact (axisRegionValue_bounds dz sat lo hi v hrange hcut).1
  · rw [key v]; exact (axisRegionValue_bounds dz sat lo hi v hrange hcut).2

/-- Witness for claim C4 at the spec's concrete property-transform scenario:
deadzone 2500, saturation 7500, range (−100, 100), raw value 16383 maps to
exactly 50 and stays within the range. -/
theorem applyAxisProperties_regions_witness :
    applyAxisProperties 2500 7500 (-100) 100 16383 = 50 ∧
    -100 ≤ applyAxisProperties 2500 7500 (-100) 100 16383 ∧
    applyAxisProperties 2500 7500 (-100) 100 16383 ≤ 100 := by
  have h := applyAxisProperties_regions 2500 7500 (-100) 100 16383 (by norm_num)
    (by decide) (by decide) (by decide)
  refine ⟨?_, h.2.2.2.2.2.2⟩
  have h4 := h.2.2.2.1 (by decide) (by decide)
  rw [h4]
  decide

end Xidi
